import Mathlib

/-!
Verification of the car-service workshop manager (routes.ts / storage.ts).

Shallow embedding conventions:
* JS `Date` instants are modelled as minutes since an arbitrary epoch
  (`Nat`); a day is 1440 minutes, the local minutes-of-day of `t` is
  `t % 1440`.  `applyBusinessHours` only ever inspects hours/minutes and
  moves in whole minutes, so minute granularity is faithful.
* JS numbers are modelled as `ℚ` (exact rationals).  Every arithmetic
  fact proved here (load `33 = round (100/3)` bookkeeping, factor sums,
  `±50` bay loads) is exact in binary64 as well: the only non-dyadic
  constant is `100/3`, and `Math.round(n ± 100/3)` agrees between
  binary64 and ℚ for all integer `n` in `[0, 100]`.
* `Math.round` is half-up rounding toward `+∞`, i.e. `⌊x + 1/2⌋`.
* The storage `Map`s (keyed by worker id, machine id, part name,
  service id) are modelled as lists; `Map.set` on an existing key is an
  in-place keyed update, on a fresh key an append.
-/

set_option maxRecDepth 4000

namespace CarService

/-- JS `Math.round`: round half toward positive infinity. -/
def jsRound (q : ℚ) : ℤ := ⌊q + 1/2⌋

/-- Round to two decimals, as `parseFloat(x.toFixed(2))` does for the
positive magnitudes occurring here. -/
def roundTo2 (q : ℚ) : ℚ := (jsRound (q * 100) : ℚ) / 100

/-! ## Data model (storage.ts schemas) -/

/-- Worker (technician) record, storage.ts `workers` table. -/
structure Worker where
  id : String
  name : String
  skill : String
  rating : ℚ
  loadPercent : ℤ
  activeJobs : List String
  status : String
deriving DecidableEq

/-- Machine bay record, storage.ts `machineBays` table. -/
structure MachineBay where
  id : String
  bayNumber : Nat
  bayType : String
  isAvailable : Bool
  assignedWorkers : List String
  currentLoad : ℤ
deriving DecidableEq

/-- Inventory item, storage.ts `inventory` table. -/
structure InventoryItem where
  id : String
  partName : String
  quantity : ℤ
  minimumStock : ℤ
deriving DecidableEq

/-- Service-task catalog entry, storage.ts `serviceTasks` table. -/
structure ServiceTask where
  id : String
  name : String
  baseTimeHours : ℚ
  category : String
  requiredParts : List String
deriving DecidableEq

/-- Live work order, storage.ts `activeServices` table (vehicle fields
that are pure copies of the request and are never read again are
omitted). -/
structure ActiveService where
  id : String
  carNumber : String
  carModel : String
  serviceType : String
  selectedTasks : List String
  predictedHours : ℚ
  estimatedCompletion : Nat
  progress : ℤ
  assignedWorkers : List String
  assignedMachine : String
  queuePosition : Option Nat
  status : String
deriving DecidableEq

/-- Completed-service receipt (routes.ts complete-service handler). -/
structure CompletedRecord where
  id : String
  predictedHours : ℚ
  amount : ℚ
deriving DecidableEq

/-- The whole in-memory repository (storage.ts `MemStorage`). -/
structure State where
  workers : List Worker
  machines : List MachineBay
  inventory : List InventoryItem
  serviceTasks : List ServiceTask
  activeServices : List ActiveService
  completedServices : Nat
  totalServiceTime : ℚ
  completedRecords : List CompletedRecord

/-- Validated service request (storage.ts `serviceRequestSchema`). -/
structure ServiceRequest where
  carNumber : String
  carModel : String
  manufactureYear : ℤ
  fuelType : String
  totalKilometers : ℤ
  kmSinceLastService : ℤ
  daysSinceLastService : ℤ
  serviceType : String
  selectedTasks : List String
  healthScore : ℤ
  errorCodes : List String
  rustLevel : String
  bodyDamage : String
  warrantyStatus : String
  batterySOH : ℚ
  fluidDegradation : ℚ
  wearTearScore : ℚ
  appointmentType : String
  servicePackage : String
  customerApprovalSpeed : String
  weather : String
  peakHours : Bool
deriving DecidableEq

/-! ## Business-hours scheduler (routes.ts `applyBusinessHours`)

The work window is 10:00 (minute 600) to 19:00 (minute 1140).  The
source loop runs while `remaining > 0`; each productive iteration either
finishes or strictly shrinks `remaining`, so a fuel of `remaining + 1`
steps is always enough.  `bhLoopF` is that loop with the fuel made
explicit (a totality device only; `bhLoopF_fuel_irrelevant` shows any
sufficient fuel computes the same answer). -/

/-- One-or-more steps of the `while (remaining > 0)` loop of
`applyBusinessHours`, fuelled.  `cur / 1440 * 1440 + 1140` is today's
19:00 (`endToday`); the natural subtraction producing `avail` is the
source's `Math.max(0, ...)`. -/
def bhLoopF : Nat → Nat → Nat → Nat
  | 0, _, cur => cur
  | fuel + 1, rem, cur =>
    if rem = 0 then cur
    else if rem ≤ cur / 1440 * 1440 + 1140 - cur then cur + rem
    else bhLoopF fuel (rem - (cur / 1440 * 1440 + 1140 - cur)) ((cur / 1440 + 1) * 1440 + 600)

/-- The source loop, with the always-sufficient fuel `rem + 1`. -/
def bhLoop (rem cur : Nat) : Nat := bhLoopF (rem + 1) rem cur

/-- Initial alignment of `applyBusinessHours`: snap a start before
10:00 forward to 10:00 today, and a start at/after 19:00 to 10:00
tomorrow.  The source computes `sHour` from hours and minutes only, so
the comparison is exactly on minutes-of-day. -/
def bhAlign (cur : Nat) : Nat :=
  if cur % 1440 < 600 then cur / 1440 * 1440 + 600
  else if 1140 ≤ cur % 1440 then (cur / 1440 + 1) * 1440 + 600
  else cur

/-- routes.ts `applyBusinessHours(start, hours)`:
`minutesToAdd = Math.round(hours * 60)`, align, then consume the
duration day window by day window.  A nonpositive `minutesToAdd` skips
the loop, which `Int.toNat` reproduces. -/
def applyBusinessHours (startMin : Nat) (hours : ℚ) : Nat :=
  bhLoop (jsRound (hours * 60)).toNat (bhAlign startMin)

/-! ## Duration estimator (routes.ts service-request Steps 1-2) -/

/-- Resolve selected task names against the catalog; unknown names are
silently dropped (`if (task)` in Step 1). -/
def resolvedTasks (catalog : List ServiceTask) (names : List String) : List ServiceTask :=
  names.filterMap (fun n => catalog.find? (fun t => t.name == n))

/-- Step 1 base time: sum of `baseTimeHours` over resolved tasks. -/
def baseTimeOf (catalog : List ServiceTask) (names : List String) : ℚ :=
  (resolvedTasks catalog names).foldl (fun s t => s + t.baseTimeHours) 0

/-- Step 1 required parts, in task order. -/
def requiredPartsOf (catalog : List ServiceTask) (names : List String) : List String :=
  (resolvedTasks catalog names).foldl (fun acc t => acc ++ t.requiredParts) []

/-- Car age factor: 0 for age ≤ 5, 0.1 for 6-10, 0.2 beyond. -/
def carAgeFactor (currentYear manufactureYear : ℤ) : ℚ :=
  if currentYear - manufactureYear > 10 then 1/5
  else if currentYear - manufactureYear > 5 then 1/10
  else 0

/-- Rust-level multiplier table. -/
def rustMultiplier (s : String) : ℚ :=
  if s = "None" then 0
  else if s = "Minor" then 1/10
  else if s = "Moderate" then 1/5
  else if s = "Severe" then 2/5
  else 0

/-- Body-damage multiplier table. -/
def damageMultiplier (s : String) : ℚ :=
  if s = "None" then 0
  else if s = "Minor" then 1/20
  else if s = "Moderate" then 3/20
  else if s = "Severe" then 3/10
  else 0

/-- Health-score factor `(100 - healthScore) / 200`. -/
def healthFactor (req : ServiceRequest) : ℚ := (100 - (req.healthScore : ℚ)) / 200

/-- Mileage factor: 0 / 0.08 (>5000) / 0.15 (>10000). -/
def kmFactor (req : ServiceRequest) : ℚ :=
  if req.kmSinceLastService > 10000 then 3/20
  else if req.kmSinceLastService > 5000 then 2/25
  else 0

/-- Error-codes factor: 0.25 per code. -/
def errorCodesFactor (req : ServiceRequest) : ℚ := (req.errorCodes.length : ℚ) * (1/4)

/-- Battery factor, electric vehicles only. -/
def batteryFactor (req : ServiceRequest) : ℚ :=
  if req.fuelType = "Electric" then (100 - req.batterySOH) / 300 else 0

/-- Fluid-degradation factor. -/
def fluidsFactor (req : ServiceRequest) : ℚ := req.fluidDegradation / 300

/-- Wear-and-tear factor. -/
def wearTearFactor (req : ServiceRequest) : ℚ := req.wearTearScore / 300

/-- Service-package factor table. -/
def packageFactor (s : String) : ℚ :=
  if s = "Basic" then 0
  else if s = "Standard" then 1/20
  else if s = "Premium" then 3/25
  else 0

/-- Customer-approval-speed factor table. -/
def approvalFactor (s : String) : ℚ :=
  if s = "Fast" then 0
  else if s = "Normal" then 1/20
  else if s = "Slow" then 3/20
  else 0

/-- Walk-in surcharge. -/
def appointmentFactor (req : ServiceRequest) : ℚ :=
  if req.appointmentType = "Walk-in" then 1/10 else 0

/-- Peak-hours surcharge. -/
def peakHoursFactor (req : ServiceRequest) : ℚ := if req.peakHours then 2/25 else 0

/-- Weather factor table. -/
def weatherFactor (s : String) : ℚ :=
  if s = "Clear" then 0
  else if s = "Rain" then 1/20
  else if s = "Extreme" then 3/25
  else 0

/-- Additive shop-load term (hours, not multiplied by base time):
0.3 for ≥ 6 live orders, 0.2 for ≥ 4. -/
def shopLoadFactor (n : Nat) : ℚ :=
  if 6 ≤ n then 3/10 else if 4 ≤ n then 1/5 else 0

/-- The sum of all per-signal factors multiplied by base time in
Step 2. -/
def conditionSum (currentYear : ℤ) (req : ServiceRequest) : ℚ :=
  carAgeFactor currentYear req.manufactureYear +
  healthFactor req +
  rustMultiplier req.rustLevel +
  damageMultiplier req.bodyDamage +
  kmFactor req +
  errorCodesFactor req +
  batteryFactor req +
  fluidsFactor req +
  wearTearFactor req +
  packageFactor req.servicePackage +
  approvalFactor req.customerApprovalSpeed +
  appointmentFactor req +
  peakHoursFactor req +
  weatherFactor req.weather

/-- Step 2 predicted duration:
`baseTime + baseTime * Σ factors + shopLoadFactor`. -/
def predictedHoursCalc (catalog : List ServiceTask) (currentYear : ℤ)
    (req : ServiceRequest) (activeCount : Nat) : ℚ :=
  baseTimeOf catalog req.selectedTasks +
    baseTimeOf catalog req.selectedTasks * conditionSum currentYear req +
    shopLoadFactor activeCount

/-! ## Inventory reservation (routes.ts service-request Step 3) -/

/-- `Array.from(new Set(xs))`: distinct elements in first-occurrence
order. -/
def firstDedup : List String → List String
  | [] => []
  | a :: l => a :: (firstDedup l).filter (fun x => !(x == a))

/-- Step 3: for each distinct required part present in inventory, warn
on the PRE-decrement quantity (0 → out of stock, < minimum → low) and
then decrement one unit clamped at 0.  Warnings are accumulated in
iteration order. -/
def inventoryStep : List InventoryItem → List String → List InventoryItem × List String
  | inv, [] => (inv, [])
  | inv, p :: ps =>
    match inv.find? (fun it => it.partName == p) with
    | none => inventoryStep inv ps
    | some item =>
      ((inventoryStep (inv.map (fun it =>
          if it.partName == p then { it with quantity := max 0 (it.quantity - 1) } else it)) ps).1,
        (if item.quantity = 0 then [p ++ " is out of stock"]
         else if item.quantity < item.minimumStock then [p ++ " stock is running low"]
         else []) ++
        (inventoryStep (inv.map (fun it =>
          if it.partName == p then { it with quantity := max 0 (it.quantity - 1) } else it)) ps).2)

/-! ## Worker and bay selection (Steps 4-6)

JS `Array.prototype.sort` with a comparator is stable; a stable sort by
a total preorder is exactly `List.insertionSort` with the corresponding
non-strict relation. -/

/-- Step 5 ordering: ascending `loadPercent`, ties broken by descending
`rating` (further ties keep submission order, as a stable sort does). -/
def workerOrder (a b : Worker) : Prop :=
  a.loadPercent < b.loadPercent ∨ (a.loadPercent = b.loadPercent ∧ b.rating ≤ a.rating)

instance : DecidableRel workerOrder := fun a b => by unfold workerOrder; infer_instance

/-- Step 6 ordering: ascending `currentLoad`. -/
def machineOrder (a b : MachineBay) : Prop := a.currentLoad ≤ b.currentLoad

instance : DecidableRel machineOrder := fun a b => by unfold machineOrder; infer_instance

/-- Step 4 ordering: descending `baseTimeHours`. -/
def taskOrder (a b : ServiceTask) : Prop := b.baseTimeHours ≤ a.baseTimeHours

instance : DecidableRel taskOrder := fun a b => by unfold taskOrder; infer_instance

/-- Step 4: category of the longest resolved task, "General" when
nothing resolved. -/
def primarySkillC (st : State) (req : ServiceRequest) : String :=
  match ((resolvedTasks st.serviceTasks req.selectedTasks).insertionSort taskOrder).head? with
  | some t => t.category
  | none => "General"

/-- Step 2's predicted hours as read by the request handler (the live
count is the full `activeServices` list length, queued included). -/
def predictedHoursC (st : State) (req : ServiceRequest) (currentYear : ℤ) : ℚ :=
  predictedHoursCalc st.serviceTasks currentYear req st.activeServices.length

/-- Step 5: skill-matched workers with spare capacity, sorted, take
`min 3 ⌈predicted/2⌉`; on an empty pick fall back to the first worker
system-wide with capacity, else warn.  Returns (ids, warnings). -/
def assignedWorkersC (st : State) (req : ServiceRequest) (currentYear : ℤ) :
    List String × List String :=
  let primarySkill := primarySkillC st req
  let skillMatched :=
    ((st.workers.filter (fun w => w.skill == primarySkill || primarySkill == "General")).filter
      (fun w => w.activeJobs.length < 3)).insertionSort workerOrder
  let numWorkersNeeded := (min 3 (Int.ceil (predictedHoursC st req currentYear / 2))).toNat
  let picked := (skillMatched.take numWorkersNeeded).map (fun w => w.id)
  if picked.isEmpty then
    match (st.workers.filter (fun w => w.activeJobs.length < 3)).head? with
    | some w => ([w.id], [])
    | none => ([], ["All workers are at maximum capacity"])
  else (picked, [])

/-- Step 6: bays with fewer than 3 assigned workers and load < 90,
sorted by ascending load. -/
def availableMachinesC (st : State) : List MachineBay :=
  (st.machines.filter (fun m => decide (m.assignedWorkers.length < 3 ∧ m.currentLoad < 90))).insertionSort
    machineOrder

/-- Number of currently Queued live orders. -/
def queuedCountC (st : State) : Nat :=
  (st.activeServices.filter (fun s => s.status == "Queued")).length

/-- Step 6 decision: at ≥ 6 live orders queue at position
(queued count + 1); otherwise take the least-loaded qualifying bay;
with no qualifying bay queue at position 1.  Returns
(assignedMachine label, queuePosition, warnings). -/
def bayDecisionC (st : State) : String × Option Nat × List String :=
  if 6 ≤ st.activeServices.length then
    ("QUEUED", some (queuedCountC st + 1),
      ["Workshop at capacity. Service queued at position " ++ toString (queuedCountC st + 1)])
  else
    match (availableMachinesC st).head? with
    | some m => ("Bay " ++ toString m.bayNumber, none, [])
    | none => ("QUEUED", some 1, ["All machines are currently in use"])

/-- Step 7: `VOL_{dateStr}_{first 3 chars of lead worker id,
uppercased}`, `QUE` when no worker was assigned. -/
def serviceIdC (st : State) (req : ServiceRequest) (currentYear : ℤ) (dateStr : String) : String :=
  match (assignedWorkersC st req currentYear).1.head? with
  | some wid => "VOL_" ++ dateStr ++ "_" ++ (wid.take 3).toUpper
  | none => "VOL_" ++ dateStr ++ "_" ++ "QUE"

/-! ## Keyed updates of workers, machines, inventory -/

/-- `storage.updateWorkerLoad` driven by a fresh `getWorker` read: a
keyed in-place update of the worker `Map`. -/
def updateWorkerBy (ws : List Worker) (wid : String) (f : Worker → Worker) : List Worker :=
  match ws.find? (fun w => w.id == wid) with
  | none => ws
  | some w => ws.map (fun x => if x.id == wid then f w else x)

/-- Step 10 per-worker update: append the new job, add one ~33% job
share capped at 100, recompute status. -/
def assignUpdate (sid : String) (w : Worker) : Worker :=
  let newJobs := w.activeJobs ++ [sid]
  { w with
    activeJobs := newJobs
    loadPercent := jsRound (min 100 ((w.loadPercent : ℚ) + 100/3))
    status := if newJobs.isEmpty then "Available" else "Busy" }

/-- Complete-service per-worker update: drop the job id, subtract one
~33% job share floored at 0, recompute status. -/
def releaseUpdate (sid : String) (w : Worker) : Worker :=
  let newJobs := w.activeJobs.filter (fun j => !(j == sid))
  { w with
    activeJobs := newJobs
    loadPercent := jsRound (max 0 ((w.loadPercent : ℚ) - 100/3))
    status := if newJobs.isEmpty then "Available" else "Busy" }

/-- Step 10: sequentially update every assigned worker. -/
def assignWorkers (ws : List Worker) (sid : String) (wids : List String) : List Worker :=
  wids.foldl (fun acc wid => updateWorkerBy acc wid (assignUpdate sid)) ws

/-- Complete-service worker loop. -/
def releaseWorkers (ws : List Worker) (sid : String) (wids : List String) : List Worker :=
  wids.foldl (fun acc wid => updateWorkerBy acc wid (releaseUpdate sid)) ws

/-- Step 11: union the assigned workers onto the chosen bay
(`Set`-dedup in first-occurrence order), add 50 load capped at 100,
recompute `isAvailable`. -/
def machineAssign (machines : List MachineBay) (m : MachineBay) (assigned : List String) :
    List MachineBay :=
  let newWorkers := firstDedup (m.assignedWorkers ++ assigned)
  machines.map (fun x =>
    if x.id == m.id then
      { x with
        currentLoad := min 100 (m.currentLoad + 50)
        assignedWorkers := newWorkers
        isAvailable := decide (newWorkers.length < 3) }
    else x)

/-- Complete-service bay release: remove this order's workers from the
first bay listing any of them, subtract 50 load floored at 0. -/
def machineRelease (machines : List MachineBay) (machine : MachineBay) (wids : List String) :
    List MachineBay :=
  let updatedWorkers := machine.assignedWorkers.filter (fun w => !(wids.contains w))
  machines.map (fun x =>
    if x.id == machine.id then
      { x with
        currentLoad := max 0 (machine.currentLoad - 50)
        assignedWorkers := updatedWorkers
        isAvailable := decide (updatedWorkers.length < 3) }
    else x)

/-- `Map.set` on the active-services map: replace an existing key,
append a fresh one. -/
def upsertService (l : List ActiveService) (s : ActiveService) : List ActiveService :=
  if l.any (fun x => x.id == s.id) then l.map (fun x => if x.id == s.id then s else x)
  else l ++ [s]

/-! ## Create work order (POST /api/service-request, Steps 1-12) -/

/-- The distinct required parts of the request (Step 3's `Set`). -/
def distinctPartsC (st : State) (req : ServiceRequest) : List String :=
  firstDedup (requiredPartsOf st.serviceTasks req.selectedTasks)

/-- Step 9's stored work order. -/
def createdService (st : State) (req : ServiceRequest) (currentYear : ℤ) (nowMin : Nat)
    (dateStr : String) : ActiveService :=
  { id := serviceIdC st req currentYear dateStr
    carNumber := req.carNumber
    carModel := req.carModel
    serviceType := req.serviceType
    selectedTasks := req.selectedTasks
    predictedHours := predictedHoursC st req currentYear
    estimatedCompletion := applyBusinessHours nowMin (predictedHoursC st req currentYear)
    progress := 0
    assignedWorkers := (assignedWorkersC st req currentYear).1
    assignedMachine := (bayDecisionC st).1
    queuePosition := (bayDecisionC st).2.1
    status := if (bayDecisionC st).2.1.isSome then "Queued" else "In Progress" }

/-- The repository state after the request: inventory decremented
(Step 3), the order stored (Step 9), workers updated (Step 10), and the
chosen bay updated only when not queued (Step 11's
`!queuePosition && availableMachines.length > 0` guard). -/
def createPost (st : State) (req : ServiceRequest) (currentYear : ℤ) (nowMin : Nat)
    (dateStr : String) : State :=
  { st with
    inventory := (inventoryStep st.inventory (distinctPartsC st req)).1
    activeServices := upsertService st.activeServices (createdService st req currentYear nowMin dateStr)
    workers := assignWorkers st.workers (serviceIdC st req currentYear dateStr)
      (assignedWorkersC st req currentYear).1
    machines :=
      if (bayDecisionC st).2.1.isSome then st.machines
      else
        match (availableMachinesC st).head? with
        | some m => machineAssign st.machines m (assignedWorkersC st req currentYear).1
        | none => st.machines }

/-- Step 12 response. -/
structure CreateResult where
  serviceId : String
  predictedHours : ℚ
  assignedWorkerNames : List String
  assignedMachine : String
  estimatedCompletion : Nat
  queuePosition : Option Nat
  warnings : List String
deriving DecidableEq

/-- The JSON response of the request handler; warnings accumulate in
source order (stock, worker capacity, bay/queue). -/
def createResultC (st : State) (req : ServiceRequest) (currentYear : ℤ) (nowMin : Nat)
    (dateStr : String) : CreateResult :=
  { serviceId := serviceIdC st req currentYear dateStr
    predictedHours := roundTo2 (predictedHoursC st req currentYear)
    assignedWorkerNames := (assignedWorkersC st req currentYear).1.map (fun wid =>
      match st.workers.find? (fun w => w.id == wid) with
      | some w => w.name
      | none => wid)
    assignedMachine := (bayDecisionC st).1
    estimatedCompletion := applyBusinessHours nowMin (predictedHoursC st req currentYear)
    queuePosition := (bayDecisionC st).2.1
    warnings := (inventoryStep st.inventory (distinctPartsC st req)).2 ++
      (assignedWorkersC st req currentYear).2 ++ (bayDecisionC st).2.2 }

/-- The full create-work-order operation. -/
def createService (st : State) (req : ServiceRequest) (currentYear : ℤ) (nowMin : Nat)
    (dateStr : String) : State × CreateResult :=
  (createPost st req currentYear nowMin dateStr, createResultC st req currentYear nowMin dateStr)

/-! ## Complete work order (POST /api/complete-service/:id) -/

/-- State after completing live order `service`: workers released, the
first bay listing any of its workers released, analytics and receipt
appended, the order removed from the live set. -/
def completePost (st : State) (sid : String) (service : ActiveService) : State :=
  { st with
    workers := releaseWorkers st.workers sid service.assignedWorkers
    machines :=
      match st.machines.find? (fun m =>
          m.assignedWorkers.any (fun w => service.assignedWorkers.contains w)) with
      | none => st.machines
      | some machine => machineRelease st.machines machine service.assignedWorkers
    completedServices := st.completedServices + 1
    totalServiceTime := st.totalServiceTime + service.predictedHours
    completedRecords := st.completedRecords ++
      [{ id := service.id
         predictedHours := service.predictedHours
         amount := roundTo2 (service.predictedHours * 250) }]
    activeServices := st.activeServices.filter (fun s => !(s.id == sid)) }

/-- Complete-service handler: `none` is the 404 path, taken before any
mutation. -/
def completeService (st : State) (sid : String) : Option State :=
  match st.activeServices.find? (fun s => s.id == sid) with
  | none => none
  | some service => some (completePost st sid service)

/-- The handler's observable effect: on 404 the state is returned
untouched with `false`. -/
def completeServiceRun (st : State) (sid : String) : State × Bool :=
  match completeService st sid with
  | none => (st, false)
  | some st2 => (st2, true)

/-! ## Theorems: business-hours scheduler (claims C2, C3) -/

/-- Once inside a day (minutes-of-day in `[600, 1140)`), the consume
loop can only land in `[600, 1140]` — the closed upper end is reached
exactly when a day's window is consumed to 19:00 sharp. -/
lemma bhLoopF_range : ∀ (fuel rem cur : Nat), 600 ≤ cur % 1440 → cur % 1440 < 1140 →
    600 ≤ bhLoopF fuel rem cur % 1440 ∧ bhLoopF fuel rem cur % 1440 ≤ 1140 := by
  intro fuel
  induction fuel with
  | zero =>
    intro rem cur h1 h2
    simp only [bhLoopF]
    omega
  | succ f ih =>
    intro rem cur h1 h2
    simp only [bhLoopF]
    split
    · omega
    · split
      · omega
      · exact ih _ _ (by omega) (by omega)

/-- The initial alignment lands strictly inside the work window. -/
lemma bhAlign_range (cur : Nat) : 600 ≤ bhAlign cur % 1440 ∧ bhAlign cur % 1440 < 1140 := by
  unfold bhAlign
  split
  · omega
  · split
    · omega
    · omega

/-- C2 (amended): for every start instant and duration, the projection
lands with minutes-of-day in the CLOSED interval `[600, 1140]`, i.e. in
`[10:00, 19:00]`; the local hour lies in `[10, 19)` except that the
result can be exactly 19:00 when the duration consumes a day's window
to its end. -/
theorem businessHours_window (s : Nat) (h : ℚ) (hpos : 0 < h) :
    600 ≤ applyBusinessHours s h % 1440 ∧ applyBusinessHours s h % 1440 ≤ 1140 := by
  unfold applyBusinessHours bhLoop
  have ha := bhAlign_range s
  exact bhLoopF_range _ _ _ ha.1 (by omega)

/-- C2 witness: the window bounds at a concrete start and duration. -/
theorem businessHours_window_witness :
    (0 : ℚ) < 1/2 ∧ (600 ≤ applyBusinessHours 540 (1/2) % 1440 ∧
      applyBusinessHours 540 (1/2) % 1440 ≤ 1140) :=
  ⟨by norm_num, businessHours_window 540 (1/2) (by norm_num)⟩

/-- C2 counterexample: starting at 18:00 with a 1-hour job ends at
exactly minute 1140 = 19:00, whose local hour 19 is outside the claimed
half-open window `[10, 19)`. -/
theorem businessHours_window_counterexample :
    applyBusinessHours 1080 1 = 1140 ∧ ¬ (applyBusinessHours 1080 1 % 1440 / 60 < 19) := by
  with_unfolding_all decide

/-- C3 (amended): with the 10:00-19:00 window, a 09:00 start with a
0.5-hour duration projects to 10:30 the same day (minute 630), and an
18:30 start with a 1-hour duration projects to 10:30 the NEXT day
(minute 2070 = day 1, 630): 30 minutes consume today to 19:00 and the
remaining 30 minutes run from 10:00 the next day. -/
theorem businessHours_examples :
    applyBusinessHours 540 (1/2) = 630 ∧ applyBusinessHours 1110 1 = 2070 := by
  with_unfolding_all decide

/-- C3 counterexample: the claimed value 11:00 next day (minute 2100)
is not what the code computes for `project(18:30, 1h)`; it computes
10:30 next day (minute 2070). -/
theorem businessHours_examples_counterexample :
    applyBusinessHours 1110 1 ≠ 2100 ∧ applyBusinessHours 1110 1 = 2070 := by
  with_unfolding_all decide

/-! ## Concrete data (storage.ts `initializeData`)

The task catalog seeded at startup.  Runtime ids are random UUIDs; they
never drive any logic, so opaque tokens stand in for them. -/

/-- The 12 predefined service tasks of `initializeData`. -/
def defaultServiceTasks : List ServiceTask :=
  [⟨"t01", "Oil Change", 1/2, "General", ["Engine Oil (5W-30)"]⟩,
   ⟨"t02", "Air Filter Replacement", 1/4, "General", ["Air Filter"]⟩,
   ⟨"t03", "Brake Inspection", 3/4, "Brake", []⟩,
   ⟨"t04", "Brake Pad Replacement", 2, "Brake", ["Brake Pads"]⟩,
   ⟨"t05", "Engine Diagnostic", 3/2, "Engine", []⟩,
   ⟨"t06", "Spark Plug Replacement", 1, "Engine", ["Spark Plugs"]⟩,
   ⟨"t07", "AC Service", 3/2, "AC", ["AC Cleaner"]⟩,
   ⟨"t08", "Coolant Flush", 1, "General", ["Coolant"]⟩,
   ⟨"t09", "Transmission Service", 5/2, "General", ["Transmission Fluid"]⟩,
   ⟨"t10", "Battery Replacement", 1/2, "General", ["Battery (12V)"]⟩,
   ⟨"t11", "Tire Rotation", 1/2, "General", []⟩,
   ⟨"t12", "Wheel Alignment", 1, "General", []⟩]

/-- A canonical valid request with every condition signal at its best
value (the list of §8's best-case property). -/
def baseRequest : ServiceRequest :=
  { carNumber := "KA01AB1234"
    carModel := "XC60"
    manufactureYear := 2024
    fuelType := "Petrol"
    totalKilometers := 10000
    kmSinceLastService := 0
    daysSinceLastService := 30
    serviceType := "Regular Service"
    selectedTasks := ["Oil Change"]
    healthScore := 100
    errorCodes := []
    rustLevel := "None"
    bodyDamage := "None"
    warrantyStatus := "In Warranty"
    batterySOH := 100
    fluidDegradation := 0
    wearTearScore := 0
    appointmentType := "Appointment"
    servicePackage := "Basic"
    customerApprovalSpeed := "Fast"
    weather := "Clear"
    peakHours := false }

/-! ## Theorems: duration estimator (claims C4, C9) -/

/-- C4 (amended): with every condition signal at its best value AND the
vehicle at most 5 years old (the car-age factor, omitted from the
claim's enumeration, must also vanish), and fewer than 4 live orders,
the estimator returns exactly the summed base time. -/
theorem estimator_bestcase (catalog : List ServiceTask) (y : ℤ) (req : ServiceRequest) (n : Nat)
    (hH : req.healthScore = 100) (hR : req.rustLevel = "None") (hB : req.bodyDamage = "None")
    (hkm : req.kmSinceLastService = 0) (hE : req.errorCodes = []) (hS : req.batterySOH = 100)
    (hF : req.fluidDegradation = 0) (hW : req.wearTearScore = 0)
    (hP : req.servicePackage = "Basic") (hA : req.customerApprovalSpeed = "Fast")
    (hWe : req.weather = "Clear") (hPk : req.peakHours = false)
    (hAp : req.appointmentType ≠ "Walk-in")
    (hAge : y - req.manufactureYear ≤ 5) (hn : n < 4) :
    predictedHoursCalc catalog y req n = baseTimeOf catalog req.selectedTasks := by
  have h1 : carAgeFactor y req.manufactureYear = 0 := by
    unfold carAgeFactor
    split_ifs with h h
    · exfalso; omega
    · exfalso; omega
    · rfl
  have h2 : healthFactor req = 0 := by
    unfold healthFactor; rw [hH]; norm_num
  have h3 : rustMultiplier req.rustLevel = 0 := by rw [hR]; rfl
  have h4 : damageMultiplier req.bodyDamage = 0 := by rw [hB]; rfl
  have h5 : kmFactor req = 0 := by
    unfold kmFactor
    split_ifs with h h
    · exfalso; omega
    · exfalso; omega
    · rfl
  have h6 : errorCodesFactor req = 0 := by
    unfold errorCodesFactor; rw [hE]; norm_num
  have h7 : batteryFactor req = 0 := by
    unfold batteryFactor
    split_ifs with h
    · rw [hS]; norm_num
    · rfl
  have h8 : fluidsFactor req = 0 := by unfold fluidsFactor; rw [hF]; norm_num
  have h9 : wearTearFactor req = 0 := by unfold wearTearFactor; rw [hW]; norm_num
  have h10 : packageFactor req.servicePackage = 0 := by rw [hP]; rfl
  have h11 : approvalFactor req.customerApprovalSpeed = 0 := by rw [hA]; rfl
  have h12 : appointmentFactor req = 0 := by unfold appointmentFactor; rw [if_neg hAp]
  have h13 : peakHoursFactor req = 0 := by unfold peakHoursFactor; rw [hPk]; rfl
  have h14 : weatherFactor req.weather = 0 := by rw [hWe]; rfl
  have h15 : shopLoadFactor n = 0 := by
    unfold shopLoadFactor
    split_ifs with h h
    · exfalso; omega
    · exfalso; omega
    · rfl
  unfold predictedHoursCalc conditionSum
  rw [h1, h2, h3, h4, h5, h6, h7, h8, h9, h10, h11, h12, h13, h14, h15]
  ring

/-- C4 witness: a new car with best signals and idle shop is estimated
at exactly its base time. -/
theorem estimator_bestcase_witness :
    (2026 - baseRequest.manufactureYear ≤ 5 ∧ (0 : Nat) < 4) ∧
    predictedHoursCalc defaultServiceTasks 2026 baseRequest 0 =
      baseTimeOf defaultServiceTasks baseRequest.selectedTasks :=
  ⟨⟨by decide, by decide⟩,
    estimator_bestcase defaultServiceTasks 2026 baseRequest 0 rfl rfl rfl rfl rfl rfl rfl rfl
      rfl rfl rfl rfl (by decide) (by decide) (by decide)⟩

/-- C4 counterexample: a 2010 car satisfies every best-signal condition
enumerated by the claim, yet the car-age factor (not in the list) makes
the estimate 0.6 h instead of the 0.5 h base time. -/
theorem estimator_bestcase_counterexample :
    predictedHoursCalc defaultServiceTasks 2026
        { baseRequest with manufactureYear := 2010 } 0 = 3/5 ∧
    baseTimeOf defaultServiceTasks
        { baseRequest with manufactureYear := 2010 }.selectedTasks = 1/2 ∧
    (3/5 : ℚ) ≠ 1/2 := by
  refine ⟨?_, ?_, by norm_num⟩ <;> with_unfolding_all decide

/-- Every estimator factor table is nonnegative regardless of its
string key. -/
lemma rustMultiplier_nonneg (s : String) : 0 ≤ rustMultiplier s := by
  unfold rustMultiplier; split_ifs <;> norm_num

/-- Damage table nonnegative. -/
lemma damageMultiplier_nonneg (s : String) : 0 ≤ damageMultiplier s := by
  unfold damageMultiplier; split_ifs <;> norm_num

/-- Package table nonnegative. -/
lemma packageFactor_nonneg (s : String) : 0 ≤ packageFactor s := by
  unfold packageFactor; split_ifs <;> norm_num

/-- Approval table nonnegative. -/
lemma approvalFactor_nonneg (s : String) : 0 ≤ approvalFactor s := by
  unfold approvalFactor; split_ifs <;> norm_num

/-- Weather table nonnegative. -/
lemma weatherFactor_nonneg (s : String) : 0 ≤ weatherFactor s := by
  unfold weatherFactor; split_ifs <;> norm_num

/-- Summing base times over a list of nonnegative-time tasks stays
nonnegative. -/
lemma foldl_baseTime_nonneg (l : List ServiceTask) :
    ∀ s : ℚ, 0 ≤ s → (∀ t ∈ l, 0 ≤ t.baseTimeHours) →
    0 ≤ l.foldl (fun a t => a + t.baseTimeHours) s := by
  induction l with
  | nil => intro s hs _; simpa using hs
  | cons t l ih =>
    intro s hs h
    simp only [List.foldl_cons]
    exact ih _ (add_nonneg hs (h t (by simp))) fun x hx => h x (by simp [hx])

/-- Every resolved task comes from the catalog. -/
lemma mem_of_resolved {catalog : List ServiceTask} {names : List String} {t : ServiceTask}
    (h : t ∈ resolvedTasks catalog names) : t ∈ catalog := by
  unfold resolvedTasks at h
  rcases List.mem_filterMap.mp h with ⟨n, _, hf⟩
  exact List.mem_of_find?_eq_some hf

/-- Base time is nonnegative over a catalog of nonnegative times. -/
lemma baseTimeOf_nonneg (catalog : List ServiceTask) (names : List String)
    (hc : ∀ t ∈ catalog, 0 ≤ t.baseTimeHours) : 0 ≤ baseTimeOf catalog names :=
  foldl_baseTime_nonneg _ 0 le_rfl fun t ht => hc t (mem_of_resolved ht)

/-- C9 (amended): over a catalog with nonnegative base times and a
request within the validation-schema bounds, the estimator returns
`predictedHours ≥ 0` — NOT strictly positive: when no selected task
name resolves and fewer than 4 orders are live it returns exactly 0
(see the counterexample). -/
theorem estimator_nonneg (catalog : List ServiceTask) (y : ℤ) (req : ServiceRequest) (n : Nat)
    (hc : ∀ t ∈ catalog, 0 ≤ t.baseTimeHours)
    (hH : req.healthScore ≤ 100) (hS : req.batterySOH ≤ 100)
    (hF : 0 ≤ req.fluidDegradation) (hW : 0 ≤ req.wearTearScore) :
    0 ≤ predictedHoursCalc catalog y req n := by
  have hb : 0 ≤ baseTimeOf catalog req.selectedTasks := baseTimeOf_nonneg catalog _ hc
  have hcs : 0 ≤ conditionSum y req := by
    unfold conditionSum
    have c1 : 0 ≤ carAgeFactor y req.manufactureYear := by
      unfold carAgeFactor; split_ifs <;> norm_num
    have c2 : 0 ≤ healthFactor req := by
      unfold healthFactor
      have : (req.healthScore : ℚ) ≤ 100 := by exact_mod_cast hH
      have : (0:ℚ) ≤ 100 - (req.healthScore : ℚ) := by linarith
      positivity
    have c5 : 0 ≤ kmFactor req := by unfold kmFactor; split_ifs <;> norm_num
    have c6 : 0 ≤ errorCodesFactor req := by
      unfold errorCodesFactor; positivity
    have c7 : 0 ≤ batteryFactor req := by
      unfold batteryFactor
      split_ifs
      · have : (0:ℚ) ≤ 100 - req.batterySOH := by linarith
        positivity
      · exact le_rfl
    have c8 : 0 ≤ fluidsFactor req := by unfold fluidsFactor; positivity
    have c9 : 0 ≤ wearTearFactor req := by unfold wearTearFactor; positivity
    have c12 : 0 ≤ appointmentFactor req := by
      unfold appointmentFactor; split_ifs <;> norm_num
    have c13 : 0 ≤ peakHoursFactor req := by
      unfold peakHoursFactor; split_ifs <;> norm_num
    have := rustMultiplier_nonneg req.rustLevel
    have := damageMultiplier_nonneg req.bodyDamage
    have := packageFactor_nonneg req.servicePackage
    have := approvalFactor_nonneg req.customerApprovalSpeed
    have := weatherFactor_nonneg req.weather
    positivity
  have hsl : 0 ≤ shopLoadFactor n := by unfold shopLoadFactor; split_ifs <;> norm_num
  unfold predictedHoursCalc
  have := mul_nonneg hb hcs
  linarith

/-- C9 witness: the base-case request gets a nonnegative estimate. -/
theorem estimator_nonneg_witness :
    baseRequest.healthScore ≤ 100 ∧
    0 ≤ predictedHoursCalc defaultServiceTasks 2026 baseRequest 0 :=
  ⟨by decide,
    estimator_nonneg defaultServiceTasks 2026 baseRequest 0 (by with_unfolding_all decide)
      (by decide) (by with_unfolding_all decide) (by with_unfolding_all decide)
      (by with_unfolding_all decide)⟩

/-- C9 counterexample: an all-unknown task selection with an idle shop
yields `predictedHours = 0`, refuting strict positivity. -/
theorem estimator_positive_counterexample :
    ¬ (0 < predictedHoursCalc defaultServiceTasks 2026
        { baseRequest with selectedTasks := ["Unknown Task"] } 0) := by
  with_unfolding_all decide

/-! ## Keyed-update lemmas

The storage `Map`s have unique keys, so a keyed update of one worker is
a pointwise map over the list, and the sequential per-worker loops of
Steps 10 and of the completion handler are a single map. -/

/-- With unique worker ids, the keyed update `updateWorkerBy` is the
pointwise map touching exactly the matching id. -/
lemma updateWorkerBy_eq_map (f : Worker → Worker) (ws : List Worker) (wid : String)
    (hN : (ws.map Worker.id).Nodup) :
    updateWorkerBy ws wid f = ws.map (fun x => if x.id = wid then f x else x) := by
  unfold updateWorkerBy
  cases hfind : ws.find? (fun w => w.id == wid) with
  | none =>
    have hno : ∀ x ∈ ws, ¬ (x.id = wid) := by
      intro x hx
      have := List.find?_eq_none.mp hfind x hx
      simpa using this
    have : ws.map (fun x => if x.id = wid then f x else x) = ws.map id := by
      apply List.map_congr_left
      intro x hx
      simp [hno x hx]
    rw [this, List.map_id]
  | some w0 =>
    have hw0 : w0 ∈ ws := List.mem_of_find?_eq_some hfind
    have hid : w0.id = wid := by
      have := List.find?_some hfind
      simpa using this
    apply List.map_congr_left
    intro x hx
    by_cases hx1 : x.id = wid
    · have hxw : x = w0 := List.inj_on_of_nodup_map hN hx hw0 (by rw [hx1, hid])
      simp [hx1, hxw]
    · simp [hx1]

/-- A sequence of keyed updates over distinct ids (with an id-preserving
update function) is a single membership-guarded map. -/
lemma foldl_updateWorkerBy (f : Worker → Worker) (hf : ∀ w, (f w).id = w.id) :
    ∀ (wids : List String) (ws : List Worker),
      (ws.map Worker.id).Nodup → wids.Nodup →
      wids.foldl (fun acc wid => updateWorkerBy acc wid f) ws =
        ws.map (fun w => if w.id ∈ wids then f w else w) := by
  intro wids
  induction wids with
  | nil =>
    intro ws _ _
    simp
  | cons wid rest ih =>
    intro ws hN hD
    simp only [List.foldl_cons]
    rw [updateWorkerBy_eq_map f ws wid hN]
    have hcomp : (Worker.id ∘ fun x => if x.id = wid then f x else x) = Worker.id := by
      funext x
      by_cases h : x.id = wid <;> simp [h, hf]
    have hN2 : (((ws.map fun x => if x.id = wid then f x else x)).map Worker.id).Nodup := by
      rw [List.map_map, hcomp]
      exact hN
    rw [ih _ hN2 (List.nodup_cons.mp hD).2, List.map_map]
    apply List.map_congr_left
    intro x hx
    have hwidout : wid ∉ rest := (List.nodup_cons.mp hD).1
    by_cases h1 : x.id = wid
    · simp only [Function.comp_apply, if_pos h1]
      have hout : (f x).id ∉ rest := by
        rw [hf x, h1]
        exact hwidout
      rw [if_neg hout, if_pos (by rw [h1]; exact List.mem_cons_self wid rest)]
    · simp only [Function.comp_apply, if_neg h1]
      by_cases h2 : x.id ∈ rest
      · rw [if_pos h2, if_pos (List.mem_cons_of_mem wid h2)]
      · rw [if_neg h2, if_neg (by rw [List.mem_cons]; rintro (h | h); exact h1 h; exact h2 h)]

/-- Assigning one ~33% job share and then releasing it restores any
integer load in `[0, 67]` exactly.  (Loads of workers with fewer than 3
jobs always lie in `[0, 67]`: the reachable per-worker load values are
0/1 with no jobs, 33/34 with one, 66/67 with two, 99/100 with three.) -/
lemma load_roundtrip (L : ℤ) (h0 : 0 ≤ L) (h67 : L ≤ 67) :
    jsRound (max 0 ((jsRound (min 100 ((L : ℚ) + 100/3)) : ℚ) - 100/3)) = L := by
  interval_cases L <;> with_unfolding_all decide

/-! ## Theorems: completion path (claims C7, C8) -/

/-- C7: completing a live order releases its resources: every assigned
technician whose load was produced by assigning the job on top of a
pre-assignment load `L ∈ [0, 67]` is restored to exactly `L` (hence
"within rounding") and loses the order id from its job list; and the
bay the completion handler locates (the first one listing any of the
order's technicians — the holding bay, when worker rosters are
consistent) has its `currentLoad` decreased by exactly 50, floored
at 0. -/
theorem complete_releases (st : State) (sid : String) (svc : ActiveService)
    (hfind : st.activeServices.find? (fun s => s.id == sid) = some svc)
    (hwN : (st.workers.map Worker.id).Nodup)
    (haN : svc.assignedWorkers.Nodup) :
    completeService st sid = some (completePost st sid svc) ∧
    (∀ w ∈ st.workers, w.id ∈ svc.assignedWorkers →
      ∀ L : ℤ, 0 ≤ L → L ≤ 67 → w.loadPercent = jsRound (min 100 ((L : ℚ) + 100/3)) →
      ∃ w', w' ∈ (completePost st sid svc).workers ∧ w'.id = w.id ∧
        w'.loadPercent = L ∧ sid ∉ w'.activeJobs) ∧
    (∀ machine, st.machines.find? (fun m =>
        m.assignedWorkers.any (fun w => svc.assignedWorkers.contains w)) = some machine →
      ∃ m', m' ∈ (completePost st sid svc).machines ∧ m'.id = machine.id ∧
        m'.currentLoad = max 0 (machine.currentLoad - 50)) := by
  refine ⟨by unfold completeService; rw [hfind], ?_, ?_⟩
  · intro w hw hmem L h0 h67 hload
    refine ⟨releaseUpdate sid w, ?_, rfl, ?_, ?_⟩
    · show releaseUpdate sid w ∈ releaseWorkers st.workers sid svc.assignedWorkers
      unfold releaseWorkers
      rw [foldl_updateWorkerBy (releaseUpdate sid) (fun w => rfl) svc.assignedWorkers
        st.workers hwN haN]
      exact List.mem_map.mpr ⟨w, hw, by rw [if_pos hmem]⟩
    · show jsRound (max 0 ((w.loadPercent : ℚ) - 100/3)) = L
      rw [hload]
      exact load_roundtrip L h0 h67
    · show sid ∉ w.activeJobs.filter (fun j => !(j == sid))
      intro hmem2
      have := (List.mem_filter.mp hmem2).2
      simp at this
  · intro machine hmfind
    have hmem : machine ∈ st.machines := List.mem_of_find?_eq_some hmfind
    refine ⟨{ machine with
        currentLoad := max 0 (machine.currentLoad - 50)
        assignedWorkers := machine.assignedWorkers.filter
          (fun w => !(svc.assignedWorkers.contains w))
        isAvailable := decide ((machine.assignedWorkers.filter
          (fun w => !(svc.assignedWorkers.contains w))).length < 3) }, ?_, rfl, rfl⟩
    show _ ∈ (completePost st sid svc).machines
    unfold completePost
    simp only
    rw [hmfind]
    unfold machineRelease
    exact List.mem_map.mpr ⟨machine, hmem, by rw [if_pos (by simp)]⟩

/-- C7 witness state: one worker holding one job at load 33 (assigned
on top of pre-load 0), the matching live order, and its bay at load
50. -/
def wit7State : State :=
  { workers := [⟨"w01", "Alex Johnson", "General", 9/2, 33, ["VOL_X_W01"], "Busy"⟩]
    machines := [⟨"m01", 1, "Diagnostic Bay", true, ["w01"], 50⟩]
    inventory := []
    serviceTasks := defaultServiceTasks
    activeServices := [⟨"VOL_X_W01", "KA01AB1234", "XC60", "Regular Service", ["Oil Change"],
      1/2, 630, 0, ["w01"], "Bay 1", none, "In Progress"⟩]
    completedServices := 0
    totalServiceTime := 0
    completedRecords := [] }

/-- C7 witness: completing the order restores the worker to load 0 and
drops the bay from 50 to 0. -/
theorem complete_releases_witness :
    completeService wit7State "VOL_X_W01" =
      some (completePost wit7State "VOL_X_W01" (wit7State.activeServices.get ⟨0, by decide⟩)) ∧
    (∀ w ∈ wit7State.workers,
      w.id ∈ (wit7State.activeServices.get ⟨0, by decide⟩).assignedWorkers →
      ∀ L : ℤ, 0 ≤ L → L ≤ 67 →
      w.loadPercent = jsRound (min 100 ((L : ℚ) + 100/3)) →
      ∃ w', w' ∈ (completePost wit7State "VOL_X_W01"
          (wit7State.activeServices.get ⟨0, by decide⟩)).workers ∧ w'.id = w.id ∧
        w'.loadPercent = L ∧ "VOL_X_W01" ∉ w'.activeJobs) ∧
    (∀ machine, wit7State.machines.find? (fun m =>
        m.assignedWorkers.any (fun w =>
          (wit7State.activeServices.get ⟨0, by decide⟩).assignedWorkers.contains w)) =
        some machine →
      ∃ m', m' ∈ (completePost wit7State "VOL_X_W01"
          (wit7State.activeServices.get ⟨0, by decide⟩)).machines ∧ m'.id = machine.id ∧
        m'.currentLoad = max 0 (machine.currentLoad - 50)) :=
  complete_releases wit7State "VOL_X_W01" (wit7State.activeServices.get ⟨0, by decide⟩)
    (by with_unfolding_all decide) (by decide) (by decide)

/-- C8: completing an order id that is not in the live set is the 404
path: the operation reports not-found and the repository state —
workers, bays, stock, live orders, completed history — is returned
completely unchanged. -/
theorem complete_notfound (st : State) (sid : String)
    (h : ∀ s ∈ st.activeServices, s.id ≠ sid) :
    completeServiceRun st sid = (st, false) := by
  unfold completeServiceRun completeService
  have hfind : st.activeServices.find? (fun s => s.id == sid) = none := by
    apply List.find?_eq_none.mpr
    intro s hs
    simpa using h s hs
  rw [hfind]

/-- C8 witness: completing an unknown id on the C7 witness state leaves
it untouched. -/
theorem complete_notfound_witness :
    completeServiceRun wit7State "VOL_UNKNOWN" = (wit7State, false) :=
  complete_notfound wit7State "VOL_UNKNOWN" (by decide)

/-! ## Theorems: inventory reservation (claim C6) -/

/-- `firstDedup` really deduplicates. -/
lemma firstDedup_nodup (l : List String) : (firstDedup l).Nodup := by
  induction l with
  | nil => simp [firstDedup]
  | cons a l ih =>
    simp only [firstDedup]
    rw [List.nodup_cons]
    constructor
    · intro hmem
      have := (List.mem_filter.mp hmem).2
      simp at this
    · exact List.Nodup.filter _ ih

/-- The per-part decrement preserves the part name. -/
lemma decrement_partName (p : String) (it : InventoryItem) :
    (if it.partName == p then { it with quantity := max 0 (it.quantity - 1) } else it).partName =
      it.partName := by
  by_cases h : it.partName == p <;> simp [h]

/-- The sequential Step 3 fold, on unique part names and distinct
iterated parts: the final inventory is a single membership-guarded map
(one clamped decrement per DISTINCT part), and the warning list is
exactly the pre-decrement out-of-stock / below-minimum tests read off
the ORIGINAL inventory. -/
lemma inventoryStep_spec :
    ∀ (parts : List String) (inv : List InventoryItem),
      (inv.map InventoryItem.partName).Nodup → parts.Nodup →
      (inventoryStep inv parts).1 = inv.map (fun it =>
        if it.partName ∈ parts then { it with quantity := max 0 (it.quantity - 1) } else it) ∧
      (inventoryStep inv parts).2 = parts.filterMap (fun p =>
        match inv.find? (fun it => it.partName == p) with
        | none => none
        | some it =>
          if it.quantity = 0 then some (p ++ " is out of stock")
          else if it.quantity < it.minimumStock then some (p ++ " stock is running low")
          else none) := by
  intro parts
  induction parts with
  | nil =>
    intro inv hN _
    refine ⟨?_, by simp [inventoryStep]⟩
    have h2 : inv.map (fun it =>
        if it.partName ∈ ([] : List String) then
          { it with quantity := max 0 (it.quantity - 1) } else it) = inv.map id := by
      apply List.map_congr_left
      intro it _
      simp
    rw [h2, List.map_id]
    rfl
  | cons p ps ih =>
    intro inv hN hD
    have hpout : p ∉ ps := (List.nodup_cons.mp hD).1
    have hps : ps.Nodup := (List.nodup_cons.mp hD).2
    cases hfind : inv.find? (fun it => it.partName == p) with
    | none =>
      have hno : ∀ it ∈ inv, ¬ (it.partName = p) := by
        intro it hit
        simpa using List.find?_eq_none.mp hfind it hit
      have hstep : inventoryStep inv (p :: ps) = inventoryStep inv ps := by
        simp only [inventoryStep, hfind]
      have ihh := ih inv hN hps
      constructor
      · rw [hstep, ihh.1]
        apply List.map_congr_left
        intro it hit
        by_cases h2 : it.partName ∈ ps
        · rw [if_pos h2, if_pos (List.mem_cons_of_mem _ h2)]
        · rw [if_neg h2, if_neg (by
            rw [List.mem_cons]
            rintro (h | h)
            exacts [hno it hit h, h2 h])]
      · rw [hstep, ihh.2, List.filterMap_cons, hfind]
    | some item =>
      have hitem : item ∈ inv := List.mem_of_find?_eq_some hfind
      have hitemp : item.partName = p := by
        have := List.find?_some hfind
        simpa using this
      have hq : ((inv.map (fun it =>
          if it.partName == p then { it with quantity := max 0 (it.quantity - 1) } else it)).map
            InventoryItem.partName).Nodup := by
        rw [List.map_map]
        have : (InventoryItem.partName ∘ fun it =>
            if it.partName == p then { it with quantity := max 0 (it.quantity - 1) } else it) =
            InventoryItem.partName := by
          funext it
          exact decrement_partName p it
        rw [this]
        exact hN
      have ihq := ih _ hq hps
      have hstep : inventoryStep inv (p :: ps) =
          ((inventoryStep (inv.map (fun it =>
            if it.partName == p then { it with quantity := max 0 (it.quantity - 1) } else it)) ps).1,
           (if item.quantity = 0 then [p ++ " is out of stock"]
            else if item.quantity < item.minimumStock then [p ++ " stock is running low"]
            else []) ++
           (inventoryStep (inv.map (fun it =>
            if it.partName == p then { it with quantity := max 0 (it.quantity - 1) } else it)) ps).2) := by
        simp only [inventoryStep, hfind]
      have hfindsame : ∀ a ∈ ps,
          (inv.map (fun it =>
            if it.partName == p then { it with quantity := max 0 (it.quantity - 1) } else it)).find?
              (fun it => it.partName == a) = inv.find? (fun it => it.partName == a) := by
        intro a ha
        have hap : a ≠ p := fun h => hpout (h ▸ ha)
        rw [List.find?_map]
        have hpred : ((fun it => it.partName == a) ∘ fun (it : InventoryItem) =>
            if it.partName == p then { it with quantity := max 0 (it.quantity - 1) } else it) =
            (fun (it : InventoryItem) => it.partName == a) := by
          funext it
          simp only [Function.comp_apply]
          rw [decrement_partName]
        rw [hpred]
        cases hfa : inv.find? (fun it => it.partName == a) with
        | none => rfl
        | some it0 =>
          have hit0 : it0.partName = a := by
            have := List.find?_some hfa
            simpa using this
          simp only [Option.map_some']
          have hb0 : (it0.partName == p) = false := by
            simp [hit0, hap]
          rw [if_neg (show ¬ ((it0.partName == p) = true) by simp [hb0])]
      have hcongr : ps.filterMap (fun a =>
          match (inv.map (fun it =>
            if it.partName == p then { it with quantity := max 0 (it.quantity - 1) } else it)).find?
              (fun it => it.partName == a) with
          | none => none
          | some it =>
            if it.quantity = 0 then some (a ++ " is out of stock")
            else if it.quantity < it.minimumStock then some (a ++ " stock is running low")
            else none) =
          ps.filterMap (fun a =>
          match inv.find? (fun it => it.partName == a) with
          | none => none
          | some it =>
            if it.quantity = 0 then some (a ++ " is out of stock")
            else if it.quantity < it.minimumStock then some (a ++ " stock is running low")
            else none) := by
        apply List.filterMap_congr
        intro a ha
        rw [hfindsame a ha]
      constructor
      · rw [hstep]
        show (inventoryStep (inv.map (fun it =>
            if it.partName == p then { it with quantity := max 0 (it.quantity - 1) } else it)) ps).1 = _
        rw [ihq.1, List.map_map]
        apply List.map_congr_left
        intro it hit
        simp only [Function.comp_apply]
        by_cases h1 : it.partName = p
        · have hb : (it.partName == p) = true := by simp [h1]
          rw [if_pos hb]
          have hm : ¬ (({ it with quantity := max 0 (it.quantity - 1) } :
              InventoryItem).partName ∈ ps) := by
            show ¬ (it.partName ∈ ps)
            rw [h1]
            exact hpout
          rw [if_neg hm,
            if_pos (show it.partName ∈ p :: ps by rw [h1]; exact List.mem_cons_self p ps)]
        · have hb : (it.partName == p) = false := by simp [h1]
          rw [if_neg (show ¬ ((it.partName == p) = true) by simp [hb])]
          by_cases h2 : it.partName ∈ ps
          · rw [if_pos h2, if_pos (List.mem_cons_of_mem _ h2)]
          · rw [if_neg h2, if_neg (by
              rw [List.mem_cons]
              rintro (h | h)
              exacts [h1 h, h2 h])]
      · rw [hstep]
        show (if item.quantity = 0 then [p ++ " is out of stock"]
            else if item.quantity < item.minimumStock then [p ++ " stock is running low"]
            else []) ++ (inventoryStep (inv.map (fun it =>
            if it.partName == p then { it with quantity := max 0 (it.quantity - 1) } else it)) ps).2 = _
        rw [ihq.2, hcongr, List.filterMap_cons]
        split_ifs with hz hl
        · simp [hfind, hz]
        · simp [hfind, hz, hl]
        · simp [hfind, hz, hl]

/-- C6 (amended): every create-work-order request decrements each
distinct required part present in inventory by exactly one unit clamped
at 0 (duplicate part names across tasks count once), and a
low/out-of-stock warning is emitted exactly when the PRE-decrement
quantity is 0 (out of stock) or strictly below the configured minimum
(running low) — not when the RESULTING quantity is; a decrement from 1
to 0 goes unwarned when the minimum is ≤ 1. -/
theorem inventory_decrement (st : State) (req : ServiceRequest) (y : ℤ) (now : Nat) (ds : String)
    (hinv : (st.inventory.map InventoryItem.partName).Nodup) :
    (createService st req y now ds).1.inventory = st.inventory.map (fun it =>
      if it.partName ∈ distinctPartsC st req then
        { it with quantity := max 0 (it.quantity - 1) } else it) ∧
    (inventoryStep st.inventory (distinctPartsC st req)).2 =
      (distinctPartsC st req).filterMap (fun p =>
        match st.inventory.find? (fun it => it.partName == p) with
        | none => none
        | some it =>
          if it.quantity = 0 then some (p ++ " is out of stock")
          else if it.quantity < it.minimumStock then some (p ++ " stock is running low")
          else none) := by
  have h := inventoryStep_spec (distinctPartsC st req) st.inventory hinv
    (firstDedup_nodup _)
  exact ⟨h.1, h.2⟩

/-- C6 witness state: two stocked parts. -/
def stockState : State :=
  { workers := [⟨"w01", "Alex Johnson", "General", 9/2, 0, [], "Available"⟩]
    machines := [⟨"m01", 1, "Diagnostic Bay", true, [], 0⟩]
    inventory := [⟨"i01", "Engine Oil (5W-30)", 30, 15⟩, ⟨"i02", "Air Filter", 25, 10⟩]
    serviceTasks := defaultServiceTasks
    activeServices := []
    completedServices := 0
    totalServiceTime := 0
    completedRecords := [] }

/-- C6 witness: a request consuming Engine Oil decrements it from 30 to
29 and leaves the other part alone. -/
theorem inventory_decrement_witness :
    (stockState.inventory.map InventoryItem.partName).Nodup ∧
    ((createService stockState baseRequest 2026 600 "20260101100000").1.inventory =
      stockState.inventory.map (fun it =>
        if it.partName ∈ distinctPartsC stockState baseRequest then
          { it with quantity := max 0 (it.quantity - 1) } else it) ∧
    (inventoryStep stockState.inventory (distinctPartsC stockState baseRequest)).2 =
      (distinctPartsC stockState baseRequest).filterMap (fun p =>
        match stockState.inventory.find? (fun it => it.partName == p) with
        | none => none
        | some it =>
          if it.quantity = 0 then some (p ++ " is out of stock")
          else if it.quantity < it.minimumStock then some (p ++ " stock is running low")
          else none)) :=
  ⟨by decide, inventory_decrement stockState baseRequest 2026 600 "20260101100000" (by decide)⟩

/-- C6 counterexample: decrementing "Brake Pads" from quantity 1
(minimum 1) to 0 emits NO warning, though the claim's "resulting
quantity is 0" condition demands one. -/
theorem inventory_warning_counterexample :
    (inventoryStep [⟨"i01", "Brake Pads", 1, 1⟩] ["Brake Pads"]).1 =
      [⟨"i01", "Brake Pads", 0, 1⟩] ∧
    (inventoryStep [⟨"i01", "Brake Pads", 1, 1⟩] ["Brake Pads"]).2 = [] := by
  with_unfolding_all decide

/-! ## Theorems: queueing decision (claim C1) -/

/-- The stored order is always a member of the live set after
`Map.set`. -/
lemma mem_upsertService (l : List ActiveService) (s : ActiveService) :
    s ∈ upsertService l s := by
  unfold upsertService
  split
  · rename_i h
    obtain ⟨x, hx, hxe⟩ := List.any_eq_true.mp h
    exact List.mem_map.mpr ⟨x, hx, by rw [if_pos hxe]⟩
  · exact List.mem_append.mpr (Or.inr (by simp))

/-- C1 (amended): a queued create-work-order request stores and returns
status Queued with the sentinel bay label "QUEUED"; its queue position
is (count of currently Queued orders) + 1 when queued because the live
count is at the capacity threshold 6, but is the CONSTANT 1 when queued
because no bay qualifies below the threshold (the code does not consult
the queued count on that branch). -/
theorem queuedOrder_fields (st : State) (req : ServiceRequest) (y : ℤ) (now : Nat)
    (ds : String) :
    (6 ≤ st.activeServices.length →
      (createService st req y now ds).2.assignedMachine = "QUEUED" ∧
      (createService st req y now ds).2.queuePosition = some (queuedCountC st + 1) ∧
      ∃ s ∈ (createService st req y now ds).1.activeServices,
        s.id = (createService st req y now ds).2.serviceId ∧ s.status = "Queued" ∧
        s.assignedMachine = "QUEUED" ∧ s.queuePosition = some (queuedCountC st + 1)) ∧
    (st.activeServices.length < 6 → availableMachinesC st = [] →
      (createService st req y now ds).2.assignedMachine = "QUEUED" ∧
      (createService st req y now ds).2.queuePosition = some 1 ∧
      ∃ s ∈ (createService st req y now ds).1.activeServices,
        s.id = (createService st req y now ds).2.serviceId ∧ s.status = "Queued" ∧
        s.assignedMachine = "QUEUED" ∧ s.queuePosition = some 1) := by
  constructor
  · intro h6
    have hdec : bayDecisionC st = ("QUEUED", some (queuedCountC st + 1),
        ["Workshop at capacity. Service queued at position " ++
          toString (queuedCountC st + 1)]) := by
      unfold bayDecisionC
      rw [if_pos h6]
    refine ⟨?_, ?_, createdService st req y now ds,
      mem_upsertService st.activeServices (createdService st req y now ds), rfl, ?_, ?_, ?_⟩
    · show (bayDecisionC st).1 = "QUEUED"
      rw [hdec]
    · show (bayDecisionC st).2.1 = some (queuedCountC st + 1)
      rw [hdec]
    · show (if (bayDecisionC st).2.1.isSome then "Queued" else "In Progress") = "Queued"
      rw [hdec]
      rfl
    · show (bayDecisionC st).1 = "QUEUED"
      rw [hdec]
    · show (bayDecisionC st).2.1 = some (queuedCountC st + 1)
      rw [hdec]
  · intro hlt havail
    have hdec : bayDecisionC st = ("QUEUED", some 1, ["All machines are currently in use"]) := by
      unfold bayDecisionC
      rw [if_neg (by omega), havail]
      rfl
    refine ⟨?_, ?_, createdService st req y now ds,
      mem_upsertService st.activeServices (createdService st req y now ds), rfl, ?_, ?_, ?_⟩
    · show (bayDecisionC st).1 = "QUEUED"
      rw [hdec]
    · show (bayDecisionC st).2.1 = some 1
      rw [hdec]
    · show (if (bayDecisionC st).2.1.isSome then "Queued" else "In Progress") = "Queued"
      rw [hdec]
      rfl
    · show (bayDecisionC st).1 = "QUEUED"
      rw [hdec]
    · show (bayDecisionC st).2.1 = some 1
      rw [hdec]

/-- An In-Progress live order occupying the shop (used to build
concrete states). -/
def ipService (i : String) : ActiveService :=
  ⟨i, "KA02CD5678", "XC90", "Repair", ["Oil Change"], 1/2, 630, 0, [], "Bay 1", none,
    "In Progress"⟩

/-- A queued live order (as stored by the queue branch). -/
def qService (i : String) : ActiveService :=
  ⟨i, "KA03EF9012", "S60", "Regular Service", ["Oil Change"], 1/2, 630, 0, [], "QUEUED",
    some 1, "Queued"⟩

/-- A shop at the 6-live-order capacity threshold with one order
already queued. -/
def shopFullState : State :=
  { workers := [⟨"w01", "Alex Johnson", "General", 9/2, 0, [], "Available"⟩]
    machines := [⟨"m01", 1, "Diagnostic Bay", true, [], 0⟩]
    inventory := []
    serviceTasks := defaultServiceTasks
    activeServices := [ipService "S1", ipService "S2", ipService "S3", ipService "S4",
      ipService "S5", qService "S6"]
    completedServices := 0
    totalServiceTime := 0
    completedRecords := [] }

/-- C1 witness: the 7th concurrent request on a full shop with 1 order
already queued is stored Queued at position 2 on bay "QUEUED". -/
theorem queuedOrder_fields_witness :
    6 ≤ shopFullState.activeServices.length ∧
    ((createService shopFullState baseRequest 2026 600 "20260101100000").2.assignedMachine =
        "QUEUED" ∧
      (createService shopFullState baseRequest 2026 600 "20260101100000").2.queuePosition =
        some (queuedCountC shopFullState + 1) ∧
      ∃ s ∈ (createService shopFullState baseRequest 2026 600 "20260101100000").1.activeServices,
        s.id = (createService shopFullState baseRequest 2026 600 "20260101100000").2.serviceId ∧
        s.status = "Queued" ∧ s.assignedMachine = "QUEUED" ∧
        s.queuePosition = some (queuedCountC shopFullState + 1)) :=
  ⟨by decide,
    (queuedOrder_fields shopFullState baseRequest 2026 600 "20260101100000").1 (by decide)⟩

/-- A shop BELOW the capacity threshold (2 live orders, one of them
queued) in which no bay qualifies: every bay already lists 3 technician
ids.  Such bay states arise from the completion handler's
release-from-the-wrong-bay slip (it releases only the first bay listing
any of the order's technicians), which leaves stale technician ids on
bays with no live order backing them. -/
def blockedBaysState : State :=
  { workers := [⟨"w01", "Alex Johnson", "General", 9/2, 0, [], "Available"⟩]
    machines := [⟨"m01", 1, "Diagnostic Bay", true, ["x1", "x2", "x3"], 50⟩,
      ⟨"m02", 2, "Diagnostic Bay", true, ["x4", "x5", "x6"], 50⟩,
      ⟨"m03", 3, "General Service Bay", true, ["x7", "x8", "x9"], 50⟩,
      ⟨"m04", 4, "General Service Bay", true, ["y1", "y2", "y3"], 50⟩,
      ⟨"m05", 5, "Heavy Repair Bay", true, ["y4", "y5", "y6"], 50⟩,
      ⟨"m06", 6, "Heavy Repair Bay", true, ["y7", "y8", "y9"], 50⟩]
    inventory := []
    serviceTasks := defaultServiceTasks
    activeServices := [ipService "S1", qService "S2"]
    completedServices := 0
    totalServiceTime := 0
    completedRecords := [] }

/-- C1 counterexample: queued below the capacity threshold because no
bay qualifies, the order gets queuePosition 1 even though one order is
already queued — the claimed value (queued count + 1) would be 2. -/
theorem queuedOrder_position_counterexample :
    (createService blockedBaysState baseRequest 2026 600 "20260101100000").2.assignedMachine =
      "QUEUED" ∧
    (createService blockedBaysState baseRequest 2026 600 "20260101100000").2.queuePosition =
      some 1 ∧
    queuedCountC blockedBaysState + 1 = 2 ∧ some 1 ≠ (some 2 : Option Nat) := by
  refine ⟨?_, ?_, by decide, by decide⟩ <;> with_unfolding_all decide

/-! ## Theorem: bay worker-capacity violation (claim C5) -/

/-- A 3-worker job about to be assigned to a bay that already lists 2
technicians; the other bays carry more load so Bay 1 is chosen.  (Bay 1
reaches this state reachably: two of its technicians' order completes
while one of them also serves an order on another bay listed earlier,
so the completion handler strips only that one id and resets the load
to 0, leaving 2 stale ids at load 0.) -/
def overfillBayState : State :=
  { workers := [⟨"w01", "Alex Johnson", "General", 5, 0, [], "Available"⟩,
      ⟨"w02", "Maria Garcia", "General", 24/5, 0, [], "Available"⟩,
      ⟨"w03", "James Smith", "General", 23/5, 0, [], "Available"⟩,
      ⟨"w04", "Sofia Rodriguez", "General", 22/5, 0, [], "Available"⟩]
    machines := [⟨"m01", 1, "Diagnostic Bay", true, ["a2", "a3"], 0⟩,
      ⟨"m02", 2, "Diagnostic Bay", true, [], 50⟩,
      ⟨"m03", 3, "General Service Bay", true, [], 50⟩,
      ⟨"m04", 4, "General Service Bay", true, [], 50⟩,
      ⟨"m05", 5, "Heavy Repair Bay", true, [], 50⟩,
      ⟨"m06", 6, "Heavy Repair Bay", true, [], 50⟩]
    inventory := []
    serviceTasks := defaultServiceTasks
    activeServices := []
    completedServices := 0
    totalServiceTime := 0
    completedRecords := [] }

/-- C5 (code bug): the Step 11 union can push a bay beyond 3 assigned
technicians, contradicting the code's own "max 3 workers per machine"
comment and the schema's "max 3": a 4.5-hour job (3 workers) lands on a
bay already listing 2, leaving it with 5. -/
theorem bay_capacity_violation :
    (createService overfillBayState
        { baseRequest with selectedTasks := ["Brake Pad Replacement", "Transmission Service"] }
        2026 600 "20260101100000").2.assignedMachine = "Bay 1" ∧
    (createService overfillBayState
        { baseRequest with selectedTasks := ["Brake Pad Replacement", "Transmission Service"] }
        2026 600 "20260101100000").1.machines.any
      (fun m => decide (3 < m.assignedWorkers.length)) = true := by
  constructor <;> with_unfolding_all decide

/-! ## Theorems: queued orders still consume resources (claim C10) -/

/-- C10: a create-work-order request whose outcome is Queued still
decrements stock exactly as Step 3 prescribes and still runs Step 10 on
the selected technicians — each gains the new order id and one ~33%
job-share of load, exactly as for an InProgress order — while the bay
state alone is left untouched. -/
theorem queued_consumes_resources (st : State) (req : ServiceRequest) (y : ℤ) (now : Nat)
    (ds : String)
    (hq : (createService st req y now ds).2.queuePosition.isSome = true)
    (hwN : (st.workers.map Worker.id).Nodup)
    (haN : (assignedWorkersC st req y).1.Nodup) :
    (createService st req y now ds).1.machines = st.machines ∧
    (createService st req y now ds).1.inventory =
      (inventoryStep st.inventory (distinctPartsC st req)).1 ∧
    (createService st req y now ds).1.workers =
      assignWorkers st.workers (serviceIdC st req y ds) (assignedWorkersC st req y).1 ∧
    ∀ w ∈ st.workers, w.id ∈ (assignedWorkersC st req y).1 →
      ∃ w', w' ∈ (createService st req y now ds).1.workers ∧ w'.id = w.id ∧
        w'.activeJobs = w.activeJobs ++ [serviceIdC st req y ds] ∧
        w'.loadPercent = jsRound (min 100 ((w.loadPercent : ℚ) + 100/3)) := by
  have hq2 : (bayDecisionC st).2.1.isSome = true := hq
  refine ⟨?_, rfl, rfl, ?_⟩
  · show (if (bayDecisionC st).2.1.isSome then st.machines else _) = st.machines
    rw [if_pos hq2]
  · intro w hw hmem
    refine ⟨assignUpdate (serviceIdC st req y ds) w, ?_, rfl, rfl, rfl⟩
    show _ ∈ assignWorkers st.workers (serviceIdC st req y ds) (assignedWorkersC st req y).1
    unfold assignWorkers
    rw [foldl_updateWorkerBy (assignUpdate (serviceIdC st req y ds)) (fun w => rfl) _ _ hwN haN]
    exact List.mem_map.mpr ⟨w, hw, by rw [if_pos hmem]⟩

/-- C10 witness: on the full shop, the queued request still assigns
worker w01 a job share and leaves the bays alone. -/
theorem queued_consumes_resources_witness :
    (createService shopFullState baseRequest 2026 600 "20260102100000").2.queuePosition.isSome =
      true ∧
    ((createService shopFullState baseRequest 2026 600 "20260102100000").1.machines =
        shopFullState.machines ∧
      (createService shopFullState baseRequest 2026 600 "20260102100000").1.inventory =
        (inventoryStep shopFullState.inventory (distinctPartsC shopFullState baseRequest)).1 ∧
      (createService shopFullState baseRequest 2026 600 "20260102100000").1.workers =
        assignWorkers shopFullState.workers
          (serviceIdC shopFullState baseRequest 2026 "20260102100000")
          (assignedWorkersC shopFullState baseRequest 2026).1 ∧
      ∀ w ∈ shopFullState.workers,
        w.id ∈ (assignedWorkersC shopFullState baseRequest 2026).1 →
        ∃ w', w' ∈ (createService shopFullState baseRequest 2026 600 "20260102100000").1.workers ∧
          w'.id = w.id ∧
          w'.activeJobs = w.activeJobs ++ [serviceIdC shopFullState baseRequest 2026 "20260102100000"] ∧
          w'.loadPercent = jsRound (min 100 ((w.loadPercent : ℚ) + 100/3))) :=
  ⟨by with_unfolding_all decide,
    queued_consumes_resources shopFullState baseRequest 2026 600 "20260102100000"
      (by with_unfolding_all decide) (by decide) (by with_unfolding_all decide)⟩

end CarService
